import Mathlib

/-!
Shallow embedding of the PIN-AI Subnet-Agents registration scripts.

The repository consists of agent registration scripts (src/agent1 .. src/agent7
and src/reg_scripts).  Each script defines a task Handler with an async
`execute(task) -> Result` method, a BiddingStrategy with `should_bid` and
`calculate_bid`, and a `main` that builds a configuration, registers the
components with the SDK, optionally submits an execution report (batch) to the
validator, and starts the agent.

The domain logic (FinNews, FoodPlanner, StockAnalysisAgent, the Hyperliquid
trading system, ...) lives outside this repository and is modelled as an
opaque function parameter that either returns a value or raises a fault.
Python exceptions are modelled by `Except Fault`; `bytes` by `List Nat`
(each element a byte value); Python `str` by Lean `String`.  The strict
UTF-8 codec used by `bytes.decode()` / `str.encode()` is implemented below,
faithful to CPython strict-mode semantics (the fault message texts are
abbreviated).
-/

namespace Subnet

/-- A Python exception, reduced to its `str(e)` message. -/
structure Fault where
  msg : String
deriving Repr, DecidableEq

/-- A Python `bytes` value: a list of byte values (each `< 256`). -/
abbrev Bytes := List Nat

/-- UTF-8 encoding of a single Unicode code point (as produced by
Python `str.encode()`; `Char` carries only valid scalar values, so
encoding is total). -/
def utf8EncodeChar (c : Nat) : Bytes :=
  if c < 0x80 then [c]
  else if c < 0x800 then [0xC0 + c / 0x40, 0x80 + c % 0x40]
  else if c < 0x10000 then
    [0xE0 + c / 0x1000, 0x80 + (c / 0x40) % 0x40, 0x80 + c % 0x40]
  else
    [0xF0 + c / 0x40000, 0x80 + (c / 0x1000) % 0x40,
     0x80 + (c / 0x40) % 0x40, 0x80 + c % 0x40]

/-- Python `str.encode()` (UTF-8). -/
def utf8Encode (s : String) : Bytes :=
  (s.toList.map fun c => utf8EncodeChar c.toNat).flatten

/-- Whether a byte is a UTF-8 continuation byte (0x80..0xBF). -/
def isCont (b : Nat) : Prop := 0x80 ≤ b ∧ b < 0xC0

instance (b : Nat) : Decidable (isCont b) := by
  unfold isCont; infer_instance

/-- Strict UTF-8 decoding to a list of code points, as performed by
Python `bytes.decode()` with the default strict error handler: rejects
stray continuation bytes, truncated sequences, overlong encodings,
surrogate code points and code points above 0x10FFFF. -/
def utf8DecodeChars : Bytes → Except Fault (List Char)
  | [] => .ok []
  | b :: rest =>
    if b < 0x80 then
      (utf8DecodeChars rest).map (Char.ofNat b :: ·)
    else if b < 0xC2 then
      .error ⟨"utf-8 codec cannot decode byte: invalid start byte"⟩
    else if b < 0xE0 then
      match rest with
      | b2 :: rest2 =>
        if isCont b2 then
          (utf8DecodeChars rest2).map
            (Char.ofNat ((b - 0xC0) * 0x40 + (b2 - 0x80)) :: ·)
        else .error ⟨"utf-8 codec cannot decode byte: invalid continuation byte"⟩
      | [] => .error ⟨"utf-8 codec cannot decode byte: unexpected end of data"⟩
    else if b < 0xF0 then
      match rest with
      | b2 :: b3 :: rest3 =>
        if isCont b2 ∧ isCont b3 ∧ (b = 0xE0 → 0xA0 ≤ b2) ∧ (b = 0xED → b2 < 0xA0) then
          (utf8DecodeChars rest3).map
            (Char.ofNat ((b - 0xE0) * 0x1000 + (b2 - 0x80) * 0x40 + (b3 - 0x80)) :: ·)
        else .error ⟨"utf-8 codec cannot decode byte: invalid continuation byte"⟩
      | _ => .error ⟨"utf-8 codec cannot decode byte: unexpected end of data"⟩
    else if b < 0xF5 then
      match rest with
      | b2 :: b3 :: b4 :: rest4 =>
        if isCont b2 ∧ isCont b3 ∧ isCont b4 ∧
            (b = 0xF0 → 0x90 ≤ b2) ∧ (b = 0xF4 → b2 < 0x90) then
          (utf8DecodeChars rest4).map
            (Char.ofNat ((b - 0xF0) * 0x40000 + (b2 - 0x80) * 0x1000 +
              (b3 - 0x80) * 0x40 + (b4 - 0x80)) :: ·)
        else .error ⟨"utf-8 codec cannot decode byte: invalid continuation byte"⟩
      | _ => .error ⟨"utf-8 codec cannot decode byte: unexpected end of data"⟩
    else .error ⟨"utf-8 codec cannot decode byte: invalid start byte"⟩

/-- Python `bytes.decode()` (strict UTF-8), producing a `str`. -/
def utf8Decode (bs : Bytes) : Except Fault String :=
  (utf8DecodeChars bs).map fun cs => ⟨cs⟩

/-! ## Data model (spec section 3 / subnet_sdk message shapes) -/

/-- Intent: a unit of advertised work broadcast by the matcher. -/
structure Intent where
  id : String
  type : String
  metadata : List (String × String) := []
deriving Repr, DecidableEq

/-- Bid: an agent offer for an Intent. -/
structure Bid where
  price : Int
  currency : String
  metadata : List (String × String) := []
deriving Repr, DecidableEq

/-- Task: the unit of work handed to a Handler. -/
structure Task where
  id : String
  assignment_id : String := ""
  data : Bytes
deriving Repr, DecidableEq

/-- Result: the outcome of executing a Task. -/
structure Result where
  data : Bytes
  success : Bool
  error : String := ""
deriving Repr, DecidableEq

/-- ExecutionReport status values used by the scripts. -/
inductive RStatus where
  | SUCCESS
  | FAILURE
deriving Repr, DecidableEq

/-- ExecutionReport: the signed record of a Task outcome submitted to the
validator. -/
structure ExecutionReport where
  assignment_id : String
  intent_id : String
  agent_id : String
  status : RStatus
  timestamp : Nat
deriving Repr, DecidableEq

/-- A per-item error of a batch response. -/
structure BatchItemError where
  index : Nat
  message : String
deriving Repr, DecidableEq

/-- BatchResponse: aggregated outcome of a batch submission. -/
structure BatchResponse where
  success : Nat
  failed : Nat
  errors : List BatchItemError := []
deriving Repr, DecidableEq

/-! ## Handlers (translated from src/)

Each handler's `execute` is an async method returning a `Result`; any
exception it does not catch propagates to its caller, which we model by
`execute` returning `Except Fault Result` (`.error` = raised past the
method boundary).  The domain call is an opaque function parameter. -/

/-- FinancialNewsHandler.execute (src/agent1/agent1_reg.py lines 26-34;
identically src/reg_scripts/agent1_reg.py lines 22-35).  The whole body is
inside the try block; `fin_news_agent` stands for the opaque domain call
`FinNews().fin_news_agent(task)` already stringified by the f-string. -/
def FinancialNewsHandler.execute (fin_news_agent : Task → Except Fault String)
    (task : Task) : Except Fault Result :=
  match fin_news_agent task with
  | .ok resp_data => .ok { data := utf8Encode resp_data, success := true }
  | .error e => .ok { data := [], success := false, error := e.msg }

/-- FoodPlannerHandler.execute (src/agent4/agent4_reg.py lines 37-52).
Line 38 decodes `task.data` BEFORE the try block begins at line 40, so a
decode fault propagates out of `execute`.  `generate_meal_recommendation`
is the opaque domain call; `json_dumps` the serialization of its result
(both inside the try block). -/
def FoodPlannerHandler.execute {α : Type}
    (generate_meal_recommendation : String → Except Fault α)
    (json_dumps : α → Except Fault String)
    (task : Task) : Except Fault Result :=
  match utf8Decode task.data with
  | .error e => .error e
  | .ok query =>
    match generate_meal_recommendation query with
    | .error e => .ok { data := [], success := false, error := e.msg }
    | .ok recommendation =>
      match json_dumps recommendation with
      | .error e => .ok { data := [], success := false, error := e.msg }
      | .ok recommendation_json =>
        .ok { data := utf8Encode recommendation_json, success := true }

/-- The fallback JSON text `json.dumps` produces for the dict
`\x7b"error": "Failed to serialize analysis object"\x7d`. -/
def StockAnalysisHandler.serializeFallback : String :=
  "\x7b\"error\": \"Failed to serialize analysis object\"\x7d"

/-- StockAnalysisHandler.execute (src/agent5/agent5_reg.py lines 37-66;
same shape in src/reg_scripts/agent5_reg.py lines 32-62).  Line 38 decodes
`task.data` BEFORE the outer try block, so a decode fault propagates.
Inside the outer try, `analyze` is the opaque domain call; the inner try
serializes its result (`serialize`), and on a serialization fault falls
back to the fixed error JSON while still returning success=True. -/
def StockAnalysisHandler.execute {α : Type}
    (analyze : String → Except Fault α)
    (serialize : α → Except Fault String)
    (task : Task) : Except Fault Result :=
  match utf8Decode task.data with
  | .error e => .error e
  | .ok query =>
    match analyze query with
    | .error e => .ok { data := [], success := false, error := e.msg }
    | .ok analysis =>
      let analysis_json :=
        match serialize analysis with
        | .ok j => j
        | .error _ => StockAnalysisHandler.serializeFallback
      .ok { data := utf8Encode analysis_json, success := true }

/-- HyperliquidHandler.execute (src/agent7/agent7_reg.py lines 46-86).
Here the decode sits INSIDE the try block (line 48), so every fault is
converted into a failure Result.  `run_system` covers lines 49-79
(json.loads, the trading-system runs and the final json.dumps), opaque. -/
def HyperliquidHandler.execute (run_system : String → Except Fault String)
    (task : Task) : Except Fault Result :=
  match utf8Decode task.data with
  | .error e => .ok { data := [], success := false, error := e.msg }
  | .ok query =>
    match run_system query with
    | .error e => .ok { data := [], success := false, error := e.msg }
    | .ok out => .ok { data := utf8Encode out, success := true }

/-! ## Bidding strategies (translated from src/) -/

/-- MyCustomBiddingStrategy.should_bid (src/agent1/agent1_reg.py line 41):
always bids. -/
def MyCustomBiddingStrategy.should_bid (_intent : Intent) : Bool :=
  true

/-- MyCustomBiddingStrategy.calculate_bid (src/agent1/agent1_reg.py
lines 45-46). -/
def MyCustomBiddingStrategy.calculate_bid (_intent : Intent) : Bid :=
  { price := 10, currency := "PIN",
    metadata := [("capabilities", "news-analyser, financial-impact-predictor")] }

/-- SimpleBiddingStrategy.should_bid (src/reg_scripts/agent2_reg.py
lines 49-50): bids only on corporate-analysis intents. -/
def SimpleBiddingStrategy.should_bid (intent : Intent) : Bool :=
  intent.type == "corporate-analysis"

/-- SimpleBiddingStrategy.calculate_bid (src/reg_scripts/agent2_reg.py
lines 52-54). -/
def SimpleBiddingStrategy.calculate_bid (_intent : Intent) : Bid :=
  { price := 10, currency := "PIN" }

/-! ## Observable output of the scripts (log and print lines in src/)

Only the pieces of output the claims mention are modelled; the private
key read from the environment must not flow into any of them. -/

/-- A printable rendering of a bytes value, standing in for the Python
repr interpolated by the f-string in the handler log line (the exact repr
formatting is immaterial to the claims: only its arguments matter). -/
def bytesRepr (bs : Bytes) : String :=
  String.intercalate " " (bs.map toString)

/-- The log lines emitted by FinancialNewsHandler.execute
(src/agent1/agent1_reg.py lines 27 and 33): the entry line interpolating
the task id and data, and on a caught fault the error line interpolating
`str(e)`. -/
def FinancialNewsHandler.logs (fin_news_agent : Task → Except Fault String)
    (task : Task) : List String :=
  ("Task " ++ task.id ++ ": Executing with data: " ++ bytesRepr task.data) ::
    match fin_news_agent task with
    | .ok _ => []
    | .error e => ["Task " ++ task.id ++ ": Failed to process: " ++ e.msg]

/-- The log line of agent1 main (src/agent1/agent1_reg.py line 99),
reached only when the report submission at line 95 returned normally:
interpolates the agent id and the subnet id (the latter from the
SUBNET_ID environment variable with its hardcoded default). -/
def agent1_main_logs (env : String → Option String) (transportOk : Bool) : List String :=
  let subnet_id := (env "SUBNET_ID").getD
    "0x0000000000000000000000000000000000000000000000000000000000000015"
  if transportOk then
    ["Starting agent: financial-news-agent-001 on subnet: " ++ subnet_id]
  else []

/-- All modelled observable output of the agent1 script: the main log
line plus the handler log lines over any sequence of dispatched tasks. -/
def agent1_observable (env : String → Option String)
    (fin_news_agent : Task → Except Fault String)
    (tasks : List Task) (transportOk : Bool) : List String :=
  agent1_main_logs env transportOk ++
    (tasks.map (FinancialNewsHandler.logs fin_news_agent)).flatten

/-! ## Spec-modelled SDK components

The subnet_sdk package (SDK, ValidatorClient, SigningConfig, the
dispatcher and the intent loop) is imported by every script but is not
under src/; the definitions below are modelled from the spec, as their
doc comments state. -/

/-- Modelled from the spec: the batch submission outcome
(ExecutionReportSubmitter / validator acceptance, spec section 4.4) —
missing from src/, where only the call sites appear.  `valid r = none`
means report `r` is accepted, `valid r = some m` that it is rejected with
message `m`.  With `partial_ok = false` the batch is all-or-nothing: any
invalid report means zero accepted and `failed = len(reports)`.  With
`partial_ok = true` each report is judged independently and every failing
index is enumerated with its reason. -/
def submit_batch (valid : ExecutionReport → Option String)
    (reports : List ExecutionReport) (partialOk : Bool) : BatchResponse :=
  let errs := reports.enum.filterMap fun p =>
    (valid p.2).map fun m => BatchItemError.mk p.1 m
  if partialOk then
    { success := reports.length - errs.length, failed := errs.length, errors := errs }
  else if errs.isEmpty then
    { success := reports.length, failed := 0, errors := [] }
  else
    { success := 0, failed := reports.length, errors := errs }

/-- Which strategy methods the SDK invoked while evaluating one intent. -/
inductive BidEvent where
  | shouldBidCalled (intentId : String)
  | calculateBidCalled (intentId : String)
deriving Repr, DecidableEq

/-- Modelled from the spec: the SDK bid-evaluation step for one intent
(spec sections 4.1 and 8) — the intent-consumption loop is not under
src/, where only the strategy classes appear.  `calculate_bid` is invoked
only when `should_bid` returned true; a fault raised in either method is
caught and treated as no bid.  The second component is the invocation
trace. -/
def evaluateIntent (should_bid : Intent → Except Fault Bool)
    (calculate_bid : Intent → Except Fault Bid)
    (intent : Intent) : Option Bid × List BidEvent :=
  match should_bid intent with
  | .error _ => (none, [.shouldBidCalled intent.id])
  | .ok false => (none, [.shouldBidCalled intent.id])
  | .ok true =>
    match calculate_bid intent with
    | .error _ => (none, [.shouldBidCalled intent.id, .calculateBidCalled intent.id])
    | .ok bid => (some bid, [.shouldBidCalled intent.id, .calculateBidCalled intent.id])

/-- One observable step of a script's main routine. -/
inductive MainEvent where
  | networkAttempt (target : String)
  | configErrorRaised (msg : String)
  | uncaughtFault (msg : String)
  | agentStarted
deriving Repr, DecidableEq

/-- Modelled from the spec: SDK.start (spec sections 4.5 and 8,
Scenario D) — not under src/, where only callers appear.  Missing
required configuration (here the private key) raises a fatal
ConfigurationError before any network connection is attempted; otherwise
start opens connections to the matcher and validator endpoints and the
agent begins running. -/
def SDK.startEvents (private_key : Option String)
    (matcher_addr validator_addr : String) : List MainEvent :=
  match private_key with
  | none => [.configErrorRaised "ConfigurationError: missing private key"]
  | some _ => [.networkAttempt matcher_addr, .networkAttempt validator_addr, .agentStarted]

/-- Modelled from the spec: ValidatorClient.submit_execution_report_batch
(spec section 4.4) — not under src/.  Submitting delivers the request to
the validator service over the network, so a connection to the client's
target is attempted. -/
def ValidatorClient.submitBatchEvents (target : String) : List MainEvent :=
  [.networkAttempt target]

/-- The event trace of agent2 main (src/agent2/agent2_reg.py
lines 63-121): lines 67-105 build the signing config, the validator
client, the agent config and register the components (no I/O); line 108
submits a report batch to the validator over the network; only after that
does line 114 call agent.start().  `env` is the process environment
(os.getenv, with the script's hardcoded address defaults); `transportOk`
tells whether the batch submission returned normally — if it raised, the
fault propagates out of main (after the finally-close) and start is never
reached. -/
def agent2_main (env : String → Option String) (transportOk : Bool) : List MainEvent :=
  let validator_addr := (env "VALIDATOR_ADDRESS").getD "localhost:9090"
  let matcher_addr := (env "MATCHER_ADDRESS").getD "localhost:8090"
  let private_key := env "PRIVATE_KEY"
  ValidatorClient.submitBatchEvents validator_addr ++
    if transportOk then SDK.startEvents private_key matcher_addr validator_addr
    else [.uncaughtFault "transport fault during batch submission"]

/-- Modelled from the spec: canonical serialization of an ExecutionReport
(spec section 4.3) — the concrete wire format is not under src/, so a
fixed field-by-field encoding with separators stands in for it. -/
def canonicalSerialize (r : ExecutionReport) : Bytes :=
  utf8Encode r.assignment_id ++ [0] ++ utf8Encode r.intent_id ++ [0] ++
    utf8Encode r.agent_id ++ [0] ++
    [match r.status with | .SUCCESS => 1 | .FAILURE => 2] ++ [0] ++
    utf8Encode (toString r.timestamp)

/-- Modelled from the spec: SigningContext.sign (spec section 4.3) — not
under src/.  A pure function of the key and the canonical serialization
of the payload; the signature algorithm itself is an opaque parameter. -/
def sign (alg : String → Bytes → Bytes) (key : String) (r : ExecutionReport) : Bytes :=
  alg key (canonicalSerialize r)

/-! ## Shared helper lemmas and example values -/

/-- An `Except` value known to be `.ok v` is `.ok` of exactly one value. -/
theorem existsUnique_ok {ε α : Type} {e : Except ε α} {v : α}
    (h : e = Except.ok v) : ∃! r, e = Except.ok r :=
  ⟨v, h, fun y hy => by rw [h] at hy; exact (Except.ok.inj hy).symm⟩

/-- The sample execution report built by the scripts (src/agent1/agent1_reg.py
lines 86-92, with a fixed timestamp). -/
def exReport : ExecutionReport :=
  { assignment_id := "assignment-1", intent_id := "intent-123",
    agent_id := "agent-1", status := .SUCCESS, timestamp := 1700000000 }

/-! ## Claim theorems -/

/-- C6: for the always-bid strategy of agent1, given
Intent{id:"i1", type:"news-analyser"}, should_bid returns true and
calculate_bid returns a Bid with price 10 and currency "PIN". -/
theorem always_bid_scenario_a :
    MyCustomBiddingStrategy.should_bid { id := "i1", type := "news-analyser" } = true ∧
    (MyCustomBiddingStrategy.calculate_bid { id := "i1", type := "news-analyser" }).price = 10 ∧
    (MyCustomBiddingStrategy.calculate_bid { id := "i1", type := "news-analyser" }).currency = "PIN" :=
  ⟨rfl, rfl, rfl⟩

/-- C1 counterexample: the claim fails as stated.  FoodPlannerHandler.execute
(src/agent4/agent4_reg.py line 38) decodes the task payload before its try
block, so on the payload b"\xff" (not valid UTF-8) execute raises the decode
fault past its own boundary instead of returning a Result. -/
theorem food_planner_raises_on_invalid_utf8 :
    FoodPlannerHandler.execute (α := Unit) (fun _ => .ok ()) (fun _ => .ok "")
      { id := "t1", assignment_id := "a1", data := [255] } =
      .error ⟨"utf-8 codec cannot decode byte: invalid start byte"⟩ := rfl

/-- C1 amended: any fault raised inside the try block is caught and converted
into Result{success:false, error:fault message}, and execute returns exactly
one Result — for FinancialNewsHandler for every byte payload, and for
FoodPlannerHandler for every payload that decodes as UTF-8; on a payload that
is not valid UTF-8, FoodPlannerHandler.execute raises the decode fault. -/
theorem execute_fault_boundary_amended {α : Type}
    (fin_news_agent : Task → Except Fault String)
    (generate_meal_recommendation : String → Except Fault α)
    (json_dumps : α → Except Fault String)
    (task : Task) :
    (∃! r : Result, FinancialNewsHandler.execute fin_news_agent task = .ok r) ∧
    (∀ e, fin_news_agent task = .error e →
      FinancialNewsHandler.execute fin_news_agent task =
        .ok { data := [], success := false, error := e.msg }) ∧
    (∀ q, utf8Decode task.data = .ok q →
      ∃! r : Result,
        FoodPlannerHandler.execute generate_meal_recommendation json_dumps task = .ok r) ∧
    (∀ q e, utf8Decode task.data = .ok q →
      generate_meal_recommendation q = .error e →
      FoodPlannerHandler.execute generate_meal_recommendation json_dumps task =
        .ok { data := [], success := false, error := e.msg }) ∧
    (∀ q rec e, utf8Decode task.data = .ok q →
      generate_meal_recommendation q = .ok rec → json_dumps rec = .error e →
      FoodPlannerHandler.execute generate_meal_recommendation json_dumps task =
        .ok { data := [], success := false, error := e.msg }) ∧
    (∀ e, utf8Decode task.data = .error e →
      FoodPlannerHandler.execute generate_meal_recommendation json_dumps task = .error e) := by
  refine ⟨?_, ?_, ?_, ?_, ?_, ?_⟩
  · cases h : fin_news_agent task with
    | ok v =>
      exact existsUnique_ok (v := { data := utf8Encode v, success := true })
        (by simp [FinancialNewsHandler.execute, h])
    | error e =>
      exact existsUnique_ok (v := { data := [], success := false, error := e.msg })
        (by simp [FinancialNewsHandler.execute, h])
  · intro e he
    simp [FinancialNewsHandler.execute, he]
  · intro q hq
    cases hg : generate_meal_recommendation q with
    | ok rec =>
      cases hd : json_dumps rec with
      | ok j =>
        exact existsUnique_ok (v := { data := utf8Encode j, success := true })
          (by simp [FoodPlannerHandler.execute, hq, hg, hd])
      | error e =>
        exact existsUnique_ok (v := { data := [], success := false, error := e.msg })
          (by simp [FoodPlannerHandler.execute, hq, hg, hd])
    | error e =>
      exact existsUnique_ok (v := { data := [], success := false, error := e.msg })
        (by simp [FoodPlannerHandler.execute, hq, hg])
  · intro q e hq hg
    simp [FoodPlannerHandler.execute, hq, hg]
  · intro q rec e hq hg hd
    simp [FoodPlannerHandler.execute, hq, hg, hd]
  · intro e he
    simp [FoodPlannerHandler.execute, he]

/-- C1 witness: the amended theorem applied to concrete faulting domain
calls — for FinancialNewsHandler on any payload and for FoodPlannerHandler
on the UTF-8-decodable payload b"hi", the fault with message "bad" is
converted into a failure Result. -/
theorem execute_fault_boundary_amended_witness :
    FinancialNewsHandler.execute (fun _ => .error ⟨"bad"⟩) { id := "t1", data := [] } =
      .ok { data := [], success := false, error := "bad" } ∧
    FoodPlannerHandler.execute (α := String) (fun _ => .error ⟨"bad"⟩) (fun _ => .ok "")
      { id := "t1", data := [104, 105] } =
      .ok { data := [], success := false, error := "bad" } :=
  ⟨(execute_fault_boundary_amended (α := String) (fun _ => .error ⟨"bad"⟩)
      (fun _ => .error ⟨"bad"⟩) (fun _ => .ok "") { id := "t1", data := [] }).2.1 ⟨"bad"⟩ rfl,
   (execute_fault_boundary_amended (α := String) (fun _ => .error ⟨"bad"⟩)
      (fun _ => .error ⟨"bad"⟩) (fun _ => .ok "")
      { id := "t1", data := [104, 105] }).2.2.2.1 "hi" ⟨"bad"⟩ rfl rfl⟩

/-- C2 counterexample: the claim fails as stated.  The handlers build the
error field as str(e) of the caught exception, and a Python exception can
have an empty message: a domain fault with message "" yields a Result with
success = false and error = "" (empty). -/
theorem failure_result_with_empty_error :
    ∃ r : Result,
      FinancialNewsHandler.execute (fun _ => .error ⟨""⟩) { id := "t1", data := [] } = .ok r ∧
      r.success = false ∧ r.error = "" :=
  ⟨{ data := [], success := false, error := "" }, rfl, rfl, rfl⟩

/-- C2 amended: for every failure Result produced by the agent1 and agent7
handlers, the error field equals the message of the fault that was caught
(so it is non-empty whenever that message is non-empty, but empty when a
fault with an empty message is caught). -/
theorem failure_error_is_fault_msg
    (fin_news_agent : Task → Except Fault String)
    (run_system : String → Except Fault String)
    (task : Task) (r : Result) :
    (FinancialNewsHandler.execute fin_news_agent task = .ok r → r.success = false →
      ∃ e, fin_news_agent task = .error e ∧ r.error = e.msg) ∧
    (HyperliquidHandler.execute run_system task = .ok r → r.success = false →
      ∃ e, r.error = e.msg ∧
        (utf8Decode task.data = .error e ∨
          ∃ q, utf8Decode task.data = .ok q ∧ run_system q = .error e)) ∧
    (∀ e, fin_news_agent task = .error e → e.msg ≠ "" →
      FinancialNewsHandler.execute fin_news_agent task = .ok r → r.error ≠ "") := by
  refine ⟨?_, ?_, ?_⟩
  · intro hx hfail
    cases h : fin_news_agent task with
    | ok v =>
      rw [FinancialNewsHandler.execute, h] at hx
      cases Except.ok.inj hx
      simp at hfail
    | error e =>
      rw [FinancialNewsHandler.execute, h] at hx
      cases Except.ok.inj hx
      exact ⟨e, rfl, rfl⟩
  · intro hx hfail
    cases hd : utf8Decode task.data with
    | error e =>
      rw [HyperliquidHandler.execute, hd] at hx
      cases Except.ok.inj hx
      exact ⟨e, rfl, Or.inl rfl⟩
    | ok q =>
      cases hr : run_system q with
      | ok out =>
        simp only [HyperliquidHandler.execute, hd, hr] at hx
        cases Except.ok.inj hx
        simp at hfail
      | error e =>
        simp only [HyperliquidHandler.execute, hd, hr] at hx
        cases Except.ok.inj hx
        exact ⟨e, rfl, Or.inr ⟨q, rfl, hr⟩⟩
  · intro e he hne hx
    rw [FinancialNewsHandler.execute, he] at hx
    cases Except.ok.inj hx
    exact hne

/-- C2 witness: the amended theorem applied to a concrete faulting domain
call with the non-empty message "bad". -/
theorem failure_error_is_fault_msg_witness :
    ({ data := [], success := false, error := "bad" } : Result).error ≠ "" :=
  (failure_error_is_fault_msg (fun _ => .error ⟨"bad"⟩) (fun _ => .ok "")
      { id := "t1", data := [] } { data := [], success := false, error := "bad" }).2.2
    ⟨"bad"⟩ rfl (by decide) rfl

/-- C9: for every failure Result (success = false) produced by the agent1,
agent5 and agent7 handlers, the data field is the empty byte string b"". -/
theorem failure_result_data_empty {α : Type}
    (fin_news_agent : Task → Except Fault String)
    (analyze : String → Except Fault α) (serialize : α → Except Fault String)
    (run_system : String → Except Fault String)
    (task : Task) (r : Result)
    (h : FinancialNewsHandler.execute fin_news_agent task = .ok r ∨
         StockAnalysisHandler.execute analyze serialize task = .ok r ∨
         HyperliquidHandler.execute run_system task = .ok r)
    (hfail : r.success = false) :
    r.data = [] := by
  rcases h with hx | hx | hx
  · cases hf : fin_news_agent task with
    | ok v =>
      simp only [FinancialNewsHandler.execute, hf] at hx
      cases Except.ok.inj hx
      simp at hfail
    | error e =>
      simp only [FinancialNewsHandler.execute, hf] at hx
      cases Except.ok.inj hx
      rfl
  · cases hdec : utf8Decode task.data with
    | error e =>
      simp only [StockAnalysisHandler.execute, hdec] at hx
      simp at hx
    | ok q =>
      cases ha : analyze q with
      | ok analysis =>
        simp only [StockAnalysisHandler.execute, hdec, ha] at hx
        cases Except.ok.inj hx
        simp at hfail
      | error e =>
        simp only [StockAnalysisHandler.execute, hdec, ha] at hx
        cases Except.ok.inj hx
        rfl
  · cases hdec : utf8Decode task.data with
    | error e =>
      simp only [HyperliquidHandler.execute, hdec] at hx
      cases Except.ok.inj hx
      rfl
    | ok q =>
      cases hr : run_system q with
      | ok out =>
        simp only [HyperliquidHandler.execute, hdec, hr] at hx
        cases Except.ok.inj hx
        simp at hfail
      | error e =>
        simp only [HyperliquidHandler.execute, hdec, hr] at hx
        cases Except.ok.inj hx
        rfl

/-- C9 witness: the theorem applied to the agent1 handler with a concrete
faulting domain call. -/
theorem failure_result_data_empty_witness :
    ({ data := [], success := false, error := "bad" } : Result).data = [] :=
  failure_result_data_empty (α := Unit) (fun _ => .error ⟨"bad"⟩)
    (fun _ => .ok ()) (fun _ => .ok "") (fun _ => .ok "")
    { id := "t1", data := [] } { data := [], success := false, error := "bad" }
    (Or.inl rfl) rfl

/-- C10: in the stock-analysis handler, when the domain analysis succeeds but
serializing its result raises, execute still returns success = true with the
fixed fallback JSON object as data. -/
theorem serialize_failure_still_success {α : Type}
    (analyze : String → Except Fault α) (serialize : α → Except Fault String)
    (task : Task) (query : String) (analysis : α) (e : Fault)
    (hdec : utf8Decode task.data = .ok query)
    (hana : analyze query = .ok analysis)
    (hser : serialize analysis = .error e) :
    StockAnalysisHandler.execute analyze serialize task =
      .ok { data := utf8Encode StockAnalysisHandler.serializeFallback, success := true } := by
  simp [StockAnalysisHandler.execute, hdec, hana, hser]

/-- C10 witness: the theorem applied to the payload b"hi" with a domain
analysis that succeeds and a serialization that raises. -/
theorem serialize_failure_still_success_witness :
    StockAnalysisHandler.execute (α := Unit) (fun _ => .ok ())
      (fun _ => .error ⟨"not serializable"⟩) { id := "t1", data := [104, 105] } =
      .ok { data := utf8Encode StockAnalysisHandler.serializeFallback, success := true } :=
  serialize_failure_still_success (fun _ => .ok ()) (fun _ => .error ⟨"not serializable"⟩)
    { id := "t1", data := [104, 105] } "hi" () ⟨"not serializable"⟩ rfl rfl rfl

/-- C3: with partial_ok = false and at least one invalid report, the batch is
all-or-nothing — zero reports accepted and failed equal to the number of
reports submitted. -/
theorem submit_batch_all_or_nothing
    (valid : ExecutionReport → Option String)
    (reports : List ExecutionReport)
    (h : ∃ r ∈ reports, (valid r).isSome) :
    (submit_batch valid reports false).success = 0 ∧
    (submit_batch valid reports false).failed = reports.length := by
  obtain ⟨r, hr, hsome⟩ := h
  have herrs : (reports.enum.filterMap fun p =>
      (valid p.2).map fun m => BatchItemError.mk p.1 m) ≠ [] := by
    intro hnil
    rw [List.filterMap_eq_nil_iff] at hnil
    have hmem : r ∈ reports.enum.map Prod.snd := by
      rw [List.enum_map_snd]; exact hr
    obtain ⟨p, hp, hpr⟩ := List.mem_map.mp hmem
    have := hnil p hp
    rw [hpr] at this
    rw [Option.isSome_iff_exists] at hsome
    obtain ⟨m, hm⟩ := hsome
    rw [hm] at this
    simp at this
  simp only [submit_batch, Bool.false_eq_true, if_false]
  rw [if_neg (by simpa [List.isEmpty_iff] using herrs)]
  exact ⟨rfl, rfl⟩

/-- C3 witness: a singleton batch whose only report is rejected. -/
theorem submit_batch_all_or_nothing_witness :
    (submit_batch (fun _ => some "bad signature") [exReport] false).success = 0 ∧
    (submit_batch (fun _ => some "bad signature") [exReport] false).failed = 1 :=
  submit_batch_all_or_nothing (fun _ => some "bad signature") [exReport]
    ⟨exReport, by simp, rfl⟩

/-- C4: for every batch submission response, in either partial_ok mode, the
success count plus the failed count equals the number of submitted reports. -/
theorem submit_batch_counts_sum
    (valid : ExecutionReport → Option String)
    (reports : List ExecutionReport) (partialOk : Bool) :
    (submit_batch valid reports partialOk).success +
      (submit_batch valid reports partialOk).failed = reports.length := by
  have hle : (reports.enum.filterMap fun p =>
      (valid p.2).map fun m => BatchItemError.mk p.1 m).length ≤ reports.length := by
    calc (reports.enum.filterMap fun p =>
          (valid p.2).map fun m => BatchItemError.mk p.1 m).length
        ≤ reports.enum.length := List.length_filterMap_le _ _
      _ = reports.length := List.enum_length
  cases partialOk with
  | true =>
    simp only [submit_batch, if_true]
    exact Nat.sub_add_cancel hle
  | false =>
    simp only [submit_batch, Bool.false_eq_true, if_false]
    by_cases he : (reports.enum.filterMap fun p =>
        (valid p.2).map fun m => BatchItemError.mk p.1 m).isEmpty
    · rw [if_pos he]; simp
    · rw [if_neg he]; simp

/-- C5 counterexample: the claim fails as stated for agent2.  With the
private key missing from the environment, the event trace of agent2 main
begins with a network connection attempt to the validator (the report batch
submission at line 108) and only afterwards contains the ConfigurationError
raised by start(), so a network connection IS attempted before that error. -/
theorem agent2_network_attempt_precedes_config_error :
    agent2_main (fun _ => none) true =
      [MainEvent.networkAttempt "localhost:9090",
       MainEvent.configErrorRaised "ConfigurationError: missing private key"] ∧
    (agent2_main (fun _ => none) true).head? =
      some (MainEvent.networkAttempt "localhost:9090") ∧
    MainEvent.configErrorRaised "ConfigurationError: missing private key" ∈
      agent2_main (fun _ => none) true := by
  refine ⟨rfl, rfl, ?_⟩
  simp [agent2_main, ValidatorClient.submitBatchEvents, SDK.startEvents]

/-- C5 amended: with the private key missing, the (spec-modelled) start()
raises ConfigurationError and start itself attempts no network connection;
but agent2 main submits a report batch to the validator — a network
connection attempt — before calling start(), so the program trace is a
validator connection attempt followed by the ConfigurationError. -/
theorem start_config_error_before_network
    (matcher_addr validator_addr : String)
    (env : String → Option String)
    (hkey : env "PRIVATE_KEY" = none) :
    SDK.startEvents none matcher_addr validator_addr =
      [MainEvent.configErrorRaised "ConfigurationError: missing private key"] ∧
    agent2_main env true =
      [MainEvent.networkAttempt ((env "VALIDATOR_ADDRESS").getD "localhost:9090"),
       MainEvent.configErrorRaised "ConfigurationError: missing private key"] := by
  constructor
  · rfl
  · simp [agent2_main, ValidatorClient.submitBatchEvents, SDK.startEvents, hkey]

/-- C5 witness: the amended theorem applied to the empty environment. -/
theorem start_config_error_before_network_witness :
    agent2_main (fun _ => none) true =
      [MainEvent.networkAttempt "localhost:9090",
       MainEvent.configErrorRaised "ConfigurationError: missing private key"] :=
  (start_config_error_before_network "localhost:8090" "localhost:9090"
    (fun _ => none) rfl).2

/-- C7: in the spec-modelled bid-evaluation step, whenever should_bid
returns false for an Intent, no bid is produced and calculate_bid is never
invoked for that Intent (no calculate_bid invocation appears in the trace). -/
theorem no_calculate_bid_when_should_bid_false
    (should_bid : Intent → Except Fault Bool)
    (calculate_bid : Intent → Except Fault Bid)
    (intent : Intent)
    (h : should_bid intent = .ok false) :
    (evaluateIntent should_bid calculate_bid intent).1 = none ∧
    BidEvent.calculateBidCalled intent.id ∉
      (evaluateIntent should_bid calculate_bid intent).2 := by
  constructor
  · simp [evaluateIntent, h]
  · simp [evaluateIntent, h]

/-- C7 witness: the theorem applied to the SimpleBiddingStrategy of
reg_scripts/agent2, which declines intents whose type is not
corporate-analysis. -/
theorem no_calculate_bid_when_should_bid_false_witness :
    BidEvent.calculateBidCalled "i9" ∉
      (evaluateIntent (fun i => .ok (SimpleBiddingStrategy.should_bid i))
        (fun i => .ok (SimpleBiddingStrategy.calculate_bid i))
        { id := "i9", type := "news-analyser" }).2 :=
  (no_calculate_bid_when_should_bid_false
    (fun i => .ok (SimpleBiddingStrategy.should_bid i))
    (fun i => .ok (SimpleBiddingStrategy.calculate_bid i))
    { id := "i9", type := "news-analyser" } rfl).2

/-- C8: signing is deterministic — the spec-modelled sign is a pure function
of the key and the canonical serialization, so equal canonical payloads with
the same key yield identical signatures — and the private key never appears
in the modelled observable output of the agent1 script: the output is
unchanged under any change of the PRIVATE_KEY environment entry
(noninterference), so no output can reveal the key value. -/
theorem sign_deterministic_and_key_not_in_output :
    (∀ (alg : String → Bytes → Bytes) (key : String) (r1 r2 : ExecutionReport),
      canonicalSerialize r1 = canonicalSerialize r2 →
      sign alg key r1 = sign alg key r2) ∧
    (∀ (env1 env2 : String → Option String)
       (fin_news_agent : Task → Except Fault String)
       (tasks : List Task) (transportOk : Bool),
      (∀ v, v ≠ "PRIVATE_KEY" → env1 v = env2 v) →
      agent1_observable env1 fin_news_agent tasks transportOk =
        agent1_observable env2 fin_news_agent tasks transportOk) := by
  constructor
  · intro alg key r1 r2 h
    unfold sign
    rw [h]
  · intro env1 env2 fin_news_agent tasks transportOk hagree
    unfold agent1_observable agent1_main_logs
    rw [hagree "SUBNET_ID" (by decide)]

/-- C8 witness: the theorem applied to a concrete signature algorithm and
report, and to two environments that differ only in PRIVATE_KEY. -/
theorem sign_deterministic_and_key_not_in_output_witness :
    sign (fun _ bs => bs) "k" exReport = sign (fun _ bs => bs) "k" exReport ∧
    agent1_observable (fun v => if v = "PRIVATE_KEY" then some "key-one" else none)
        (fun _ => .ok "") [] true =
      agent1_observable (fun v => if v = "PRIVATE_KEY" then some "key-two" else none)
        (fun _ => .ok "") [] true :=
  ⟨sign_deterministic_and_key_not_in_output.1 (fun _ bs => bs) "k" exReport exReport rfl,
   sign_deterministic_and_key_not_in_output.2
     (fun v => if v = "PRIVATE_KEY" then some "key-one" else none)
     (fun v => if v = "PRIVATE_KEY" then some "key-two" else none)
     (fun _ => .ok "") [] true (fun v hv => by simp [hv])⟩

end Subnet
